import Mathlib

/-!
Shallow embedding of the ARCSI abstract-sensor calibration pipeline
(`arcsilib/arcsisensor.py`) and proofs about its claims.

Conventions of the embedding:
* Python floats are modelled as exact rationals (`ℚ`); the literal `0.05`
  is the rational `1/20`.
* Raster collaborators (rsgislib band maths, clumping, RAT statistics,
  scipy interpolation, OGR coordinate transforms) are external per the
  spec; their per-pixel / per-object outcomes are abstracted as function
  parameters, while every piece of arithmetic and control flow that the
  Python source itself performs is embedded verbatim.
* Fallible code returns `Except`; the undefined (NaN) result of cubic
  interpolation is modelled as `Option ℚ` with `none` for NaN.
-/

namespace Arcsi

/-- Per-pixel semantics of the band-maths expression built at
`arcsisensor.py:895` (and identically at line 971 for the local variant):
`(TOA==0)?0:((TOA-Off)+dosOutRefl)<=0?1.0:(TOA-Off)+dosOutRefl`. -/
def performDOSOnSingleBandExpr (dosOutRefl off toa : ℚ) : ℚ :=
  if toa = 0 then 0
  else if toa - off + dosOutRefl ≤ 0 then 1
  else toa - off + dosOutRefl

/-- Per-pixel semantics of the band-maths expression built at
`arcsisensor.py:1142`:
`(b1 == 0.0)?0.0:((b1-off) + dosOutRefl) < 0?1.0: (b1-off) + dosOutRefl`
where `off` is the band's 1st-percentile value. -/
def convertImageBandToReflectanceSimpleDarkSubtractExpr (dosOutRefl off b1 : ℚ) : ℚ :=
  if b1 = 0 then 0
  else if b1 - off + dosOutRefl < 0 then 1
  else b1 - off + dosOutRefl

/-- LUT entry named tuple `ElevLUTFeat(Elev, Coeffs)` (`arcsisensor.py:724`). -/
structure ElevLUTFeat (α : Type) where
  Elev : ℚ
  Coeffs : α
deriving Repr, DecidableEq

/-- LUT entry named tuple `AOTLUTFeat(AOT, Coeffs)` (`arcsisensor.py:740`). -/
structure AOTLUTFeat (α : Type) where
  AOT : ℚ
  Coeffs : α
deriving Repr, DecidableEq

/-- The loop of `buildElevation6SCoeffLUT` (`arcsisensor.py:729-732`):
starting from `elevVal`, run `n` iterations, each appending one entry and
making exactly one solver call with the altitude in kilometres
(`float(elevVal)/1000`), then stepping the elevation by `100`.
`solver altKm aot` abstracts `self.calc6SCoefficients(aero, atmos, grdRefl,
altKm, aot, useBRDF)` with the non-numeric arguments fixed. -/
def buildElevLoop {α : Type} (solver : ℚ → ℚ → α) (aotVal : ℚ) : ℚ → ℕ → List (ElevLUTFeat α)
  | _, 0 => []
  | elevVal, n + 1 =>
    { Elev := elevVal, Coeffs := solver (elevVal / 1000) aotVal } ::
      buildElevLoop solver aotVal (elevVal + 100) n

/-- `numElevSteps = int(math.ceil((surfaceAltitudeMax - surfaceAltitudeMin) / 100) + 1)`
(`arcsisensor.py:726-727`), as an integer (Python `range` of a negative count is empty). -/
def numElevSteps (surfaceAltitudeMin surfaceAltitudeMax : ℚ) : ℤ :=
  ⌈(surfaceAltitudeMax - surfaceAltitudeMin) / 100⌉ + 1

/-- `buildElevation6SCoeffLUT` (`arcsisensor.py:723-733`). -/
def buildElevation6SCoeffLUT {α : Type} (solver : ℚ → ℚ → α)
    (aotVal surfaceAltitudeMin surfaceAltitudeMax : ℚ) : List (ElevLUTFeat α) :=
  buildElevLoop solver aotVal surfaceAltitudeMin
    (numElevSteps surfaceAltitudeMin surfaceAltitudeMax).toNat

/-- The inner AOT loop of `buildElevationAOT6SCoeffLUT` (`arcsisensor.py:754-756`):
`n` iterations from `aotVal`, stepping by `0.05`, one solver call each with the
fixed elevation in kilometres. -/
def buildAOTLoop {α : Type} (solver : ℚ → ℚ → α) (elevVal : ℚ) : ℚ → ℕ → List (AOTLUTFeat α)
  | _, 0 => []
  | aotVal, n + 1 =>
    { AOT := aotVal, Coeffs := solver (elevVal / 1000) aotVal } ::
      buildAOTLoop solver elevVal (aotVal + 1 / 20) n

/-- `numAOTSteps = int(math.ceil((aotMax - aotMin) / 0.05) + 1) + 1`
(`arcsisensor.py:746-747`). -/
def numAOTSteps (aotMin aotMax : ℚ) : ℤ :=
  ⌈(aotMax - aotMin) / (1 / 20)⌉ + 1 + 1

/-- The outer elevation loop of `buildElevationAOT6SCoeffLUT`
(`arcsisensor.py:750-758`): each iteration resets `aotVal = aotMin`, builds the
inner AOT list, appends the `(Elev, innerList)` entry and steps the elevation by 100. -/
def buildElevAOTLoop {α : Type} (solver : ℚ → ℚ → α) (aotMin : ℚ) (nAOT : ℕ) :
    ℚ → ℕ → List (ElevLUTFeat (List (AOTLUTFeat α)))
  | _, 0 => []
  | elevVal, n + 1 =>
    { Elev := elevVal, Coeffs := buildAOTLoop solver elevVal aotMin nAOT } ::
      buildElevAOTLoop solver aotMin nAOT (elevVal + 100) n

/-- `buildElevationAOT6SCoeffLUT` (`arcsisensor.py:738-759`). -/
def buildElevationAOT6SCoeffLUT {α : Type} (solver : ℚ → ℚ → α)
    (surfaceAltitudeMin surfaceAltitudeMax aotMin aotMax : ℚ) :
    List (ElevLUTFeat (List (AOTLUTFeat α))) :=
  buildElevAOTLoop solver aotMin (numAOTSteps aotMin aotMax).toNat
    surfaceAltitudeMin (numElevSteps surfaceAltitudeMin surfaceAltitudeMax).toNat

/-- `numAOTValTests = int(math.ceil((aotValMax - aotValMin)/0.05))+1`
(`arcsisensor.py:1236`). -/
def numAOTValTests (aotValMin aotValMax : ℚ) : ℤ :=
  ⌈(aotValMax - aotValMin) / (1 / 20)⌉ + 1

/-- The exact error message raised at `arcsisensor.py:1238`. -/
def aotRangeErrMsg : String :=
  "min and max AOT range are too close together, they need to be at least 0.05 apart."

/-- One iteration of the AOT candidate loop (`arcsisensor.py:1245-1253`):
`cAOT = aotValMin + (0.05 * j)`, `cDist = f cAOT`; iteration `j = 0`
initialises the running minimum, later iterations update it only on a
strictly smaller distance. The accumulator is `(minAOT, minDist)`. -/
def aotStep (f : ℚ → ℚ) (aotValMin : ℚ) (acc : ℚ × ℚ) (j : ℕ) : ℚ × ℚ :=
  let cAOT := aotValMin + (1 / 20) * (j : ℚ)
  let cDist := f cAOT
  if j = 0 then (cAOT, cDist)
  else if cDist < acc.2 then (cAOT, cDist)
  else acc

/-- The AOT candidate loop of `estimateSingleAOTFromDOSBandImpl`
(`arcsisensor.py:1240-1254`): `minAOT` and `minDist` start at `0.0`, the loop
runs over `range n`, and the final `minAOT` is returned. -/
def aotSearchLoop (f : ℚ → ℚ) (aotValMin : ℚ) (n : ℕ) : ℚ :=
  ((List.range n).foldl (aotStep f aotValMin) (0, 0)).1

/-- The AOT-search stage of `estimateSingleAOTFromDOSBandImpl`
(`arcsisensor.py:1235-1257`): raise when `not numAOTValTests >= 1`, otherwise
run the candidate loop and return the minimising AOT. `f` abstracts
`self.run6SToOptimiseAODValue(cAOT, radVal, reflDOS, aero, atmos, grdRefl,
elevVal/1000)` as a function of the candidate AOT, all other arguments being
fixed before the loop. -/
def estimateSingleAOTFromDOSBandImplSearch (f : ℚ → ℚ) (aotValMin aotValMax : ℚ) :
    Except String ℚ :=
  if ¬ numAOTValTests aotValMin aotValMax ≥ 1 then
    Except.error aotRangeErrMsg
  else
    Except.ok (aotSearchLoop f aotValMin (numAOTValTests aotValMin aotValMax).toNat)

/-- The `while findTargets` retry loop of `calcDarkTargetOffsetsForBand`
(`arcsisensor.py:772-811`), indexed by explicit fuel since the source has no
retry cap. `ratRows p` abstracts the number of rows (`Histogram.size`) of the
raster attribute table produced by the thresholding / clumping / relabelling
pipeline of the loop body when run with dark-pixel percentile `p`; the loop
exits with the current percentile when `ratRows p > 10` and otherwise doubles
the percentile and retries (`darkPxlPercentile = darkPxlPercentile * 2`).
`none` means the fuel ran out with the loop still running. -/
def calcDarkTargetOffsetsForBandLoop (ratRows : ℚ → ℕ) : ℚ → ℕ → Option ℚ
  | _, 0 => none
  | darkPxlPercentile, fuel + 1 =>
    if ratRows darkPxlPercentile > 10 then some darkPxlPercentile
    else calcDarkTargetOffsetsForBandLoop ratRows (darkPxlPercentile * 2) fuel

/-- Acquisition date component of `self.acquisitionTime`. -/
structure AcqDate where
  year : ℕ
  month : ℕ
  day : ℕ
deriving Repr, DecidableEq

/-- Zero-padded two-digit rendering used by `strftime` fields `%m` / `%d`. -/
def pad2 (n : ℕ) : String :=
  if n < 10 then "0" ++ toString n else toString n

/-- `self.acquisitionTime.strftime("%Y%m%d")` (`arcsisensor.py:281`). -/
def strftimeYmd (d : AcqDate) : String :=
  toString d.year ++ pad2 d.month ++ pad2 d.day

/-- Python 3 `round(q)`: round half to even, returning an integer. -/
def pyRoundHalfEven (q : ℚ) : ℤ :=
  if q - ⌊q⌋ < 1 / 2 then ⌊q⌋
  else if 1 / 2 < q - ⌊q⌋ then ⌊q⌋ + 1
  else if ⌊q⌋ % 2 = 0 then ⌊q⌋ else ⌊q⌋ + 1

/-- Python `round(q, 2)`: round half to even at two decimal places. -/
def pyRound2 (q : ℚ) : ℚ :=
  (pyRoundHalfEven (q * 100) : ℚ) / 100

/-- Python `str` of a float that is an exact multiple of `1/100` (any result of
`round(_, 2)`): sign, integer part, then one or two fractional digits with a
trailing zero dropped (Python prints `-69.5`, `10.0`, `69.05`). -/
def pyFloatStr2 (q : ℚ) : String :=
  let c : ℤ := ⌊q * 100⌋
  let sign := if c < 0 then "-" else ""
  let a := c.natAbs
  let frac := a % 100
  let fracStr :=
    if frac % 10 = 0 then toString (frac / 10)
    else if frac < 10 then "0" ++ toString frac
    else toString frac
  sign ++ toString (a / 100) ++ "." ++ fracStr

/-- Python `s.replace(c, '')`: drop every occurrence of the character `c`. -/
def pyRemoveChar (c : Char) (s : String) : String :=
  ⟨s.data.filter (fun x => x ≠ c)⟩

/-- The slice of sensor state read by `defaultGenBaseOutFileName`. -/
structure SensorState where
  sensor : String
  acquisitionTime : AcqDate
  latCentre : ℚ
  lonCentre : ℚ

/-- `defaultGenBaseOutFileName` (`arcsisensor.py:274-284`). Note the source
line 282 writes `round(self.latCentre,)` — a call with a single argument and a
trailing comma, i.e. rounding to an integer — while the longitude uses
`round(self.lonCentre,2)`. -/
def defaultGenBaseOutFileName (st : SensorState) : String :=
  let date := strftimeYmd st.acquisitionTime
  let latTok := pyRemoveChar '-' (pyRemoveChar '.' (toString (pyRoundHalfEven st.latCentre)))
  let lonTok := pyRemoveChar '-' (pyRemoveChar '.' (pyFloatStr2 (pyRound2 st.lonCentre)))
  let pos := "lat" ++ latTok ++ "lon" ++ lonTok
  st.sensor ++ "_" ++ date ++ "_" ++ pos

/-- The `SensorState` of the spec's end-to-end scenario: centre `(9.5, -69.5)`,
acquisition date 2001-06-15 (the sensor string keeps the base-class default
`"NA"`, `arcsisensor.py:116`). -/
def scenarioState : SensorState :=
  { sensor := "NA"
    acquisitionTime := { year := 2001, month := 6, day := 15 }
    latCentre := 19 / 2
    lonCentre := -139 / 2 }

/-- Per-pixel semantics of `interpolateImageFromPointData`
(`arcsisensor.py:1295-1301`): `interZ = numpy.where(numpy.isnan(interZcub),
interZnn, interZcub)` followed, when `notNegOut`, by
`numpy.where(interZ < 0, notNegMinVal, interZ)`. The cubic result `cub` is
`none` where `scipy.interpolate.griddata(..., method='cubic')` returns NaN;
the nearest-neighbour result `nn` is always defined. -/
def interpolatePixel (notNegOut : Bool) (notNegMinVal : ℚ) (cub : Option ℚ) (nn : ℚ) : ℚ :=
  let interZ := match cub with
    | some v => v
    | none => nn
  if notNegOut then (if interZ < 0 then notNegMinVal else interZ) else interZ

/-- `interpolateImageFromPointData` (`arcsisensor.py:1290-1314`) over the
flattened pixels of a block: `cubVals` and `nnVals` list the per-pixel cubic
(`none` = NaN) and nearest-neighbour interpolation results. -/
def interpolateImageFromPointData (notNegOut : Bool) (notNegMinVal : ℚ)
    (cubVals : List (Option ℚ)) (nnVals : List ℚ) : List ℚ :=
  List.zipWith (interpolatePixel notNegOut notNegMinVal) cubVals nnVals

/-- The output dictionary `projImgBBOX` of `getReProjBBOX`
(`arcsisensor.py:469-473`). -/
structure ProjImgBBOX where
  MinX : ℚ
  MaxX : ℚ
  MinY : ℚ
  MaxY : ℚ
deriving Repr, DecidableEq

/-- `getReProjBBOX` (`arcsisensor.py:467-518`). `transform` abstracts the OGR
reprojection of a point from the source CRS into the target CRS; the snapping
arithmetic is embedded verbatim: `minX = floor(tlx/xPxlRes)*xPxlRes`,
`maxY = ceil(tly/fabs(yPxlRes))*fabs(yPxlRes)` from the transformed TL corner
and `maxX = ceil(brx/xPxlRes)*xPxlRes`,
`minY = floor(bry/fabs(yPxlRes))*fabs(yPxlRes)` from the transformed BR
corner. The `snap2Grid` parameter is accepted but never read by the body. -/
def getReProjBBOX (transform : ℚ × ℚ → ℚ × ℚ)
    (xTL yTL xBR yBR xPxlRes yPxlRes : ℚ) (snap2Grid : Bool) : ProjImgBBOX :=
  let yPxlResAbs := |yPxlRes|
  let ptTL := transform (xTL, yTL)
  let minXPt := (⌊ptTL.1 / xPxlRes⌋ : ℚ) * xPxlRes
  let maxYPt := (⌈ptTL.2 / yPxlResAbs⌉ : ℚ) * yPxlResAbs
  let ptBR := transform (xBR, yBR)
  let maxXPt := (⌈ptBR.1 / xPxlRes⌉ : ℚ) * xPxlRes
  let minYPt := (⌊ptBR.2 / yPxlResAbs⌋ : ℚ) * yPxlResAbs
  { MinX := minXPt, MaxX := maxXPt, MinY := minYPt, MaxY := maxYPt }

/-- C1 counterexample: with `dosOutRefl = 20`, offset `100` and TOA value `1`
— a nonzero pixel strictly below `offset − dosOutRefl = 80` — both DOS
subtraction expressions output `1`, not `dosOutRefl = 20`: the clamp branch of
the band-maths expression emits the literal `1.0`. -/
theorem dosFloorOutputsOne_not_dosOutRefl :
    (1 : ℚ) < 100 - 20 ∧
    performDOSOnSingleBandExpr 20 100 1 = 1 ∧
    convertImageBandToReflectanceSimpleDarkSubtractExpr 20 100 1 = 1 ∧
    performDOSOnSingleBandExpr 20 100 1 ≠ 20 ∧
    convertImageBandToReflectanceSimpleDarkSubtractExpr 20 100 1 ≠ 20 := by
  refine ⟨by norm_num, ?_, ?_, ?_, ?_⟩ <;>
    simp [performDOSOnSingleBandExpr, convertImageBandToReflectanceSimpleDarkSubtractExpr] <;>
    norm_num

/-- C1 amended: for every DOS subtraction over a per-pixel offset, a pixel
whose TOA value is 0 produces output 0 regardless of the offset, and a nonzero
pixel whose TOA value is below `offset − dosOutRefl` produces output exactly
`1` (the clamp emits the constant `1.0`, not `dosOutRefl`). -/
theorem dosSubtract_nodata_and_floor (dosOutRefl off toa : ℚ)
    (hnz : toa ≠ 0) (hlt : toa < off - dosOutRefl) :
    performDOSOnSingleBandExpr dosOutRefl off 0 = 0 ∧
    convertImageBandToReflectanceSimpleDarkSubtractExpr dosOutRefl off 0 = 0 ∧
    performDOSOnSingleBandExpr dosOutRefl off toa = 1 ∧
    convertImageBandToReflectanceSimpleDarkSubtractExpr dosOutRefl off toa = 1 := by
  unfold performDOSOnSingleBandExpr convertImageBandToReflectanceSimpleDarkSubtractExpr
  have hle : toa - off + dosOutRefl ≤ 0 := by linarith
  have hlt0 : toa - off + dosOutRefl < 0 := by linarith
  rw [if_pos rfl, if_pos rfl, if_neg hnz, if_pos hle, if_neg hnz, if_pos hlt0]
  exact ⟨rfl, rfl, rfl, rfl⟩

/-- Witness for the amended C1 theorem at `dosOutRefl = 20`, `off = 100`,
`toa = 1`. -/
theorem dosSubtract_nodata_and_floor_witness :
    ((1 : ℚ) ≠ 0 ∧ (1 : ℚ) < 100 - 20) ∧
    (performDOSOnSingleBandExpr 20 100 0 = 0 ∧
     convertImageBandToReflectanceSimpleDarkSubtractExpr 20 100 0 = 0 ∧
     performDOSOnSingleBandExpr 20 100 1 = 1 ∧
     convertImageBandToReflectanceSimpleDarkSubtractExpr 20 100 1 = 1) :=
  ⟨⟨by norm_num, by norm_num⟩,
   dosSubtract_nodata_and_floor 20 100 1 (by norm_num) (by norm_num)⟩

/-- C5 (code bug): the `while findTargets` retry loop of
`calcDarkTargetOffsetsForBand` has no retry cap. For an input band whose
thresholded dark mask always clumps into a single-row raster attribute table
(component count stays ≤ 10 at every percentile), the loop never exits: for
every starting percentile and every finite iteration budget the loop is still
running. -/
theorem calcDarkTargetOffsetsForBandLoop_never_terminates :
    ∀ (fuel : ℕ) (darkPxlPercentile : ℚ),
      calcDarkTargetOffsetsForBandLoop (fun _ => 1) darkPxlPercentile fuel = none := by
  intro fuel
  induction fuel with
  | zero => intro p; rfl
  | succ n ih =>
    intro p
    simpa [calcDarkTargetOffsetsForBandLoop] using ih (p * 2)

/-- C6 (code bug): at the spec's scenario state (centre `(9.5, -69.5)`, date
2001-06-15), the generated base name does contain `"20010615"`, but its
latitude token is `"10"` — `round(self.latCentre,)` at `arcsisensor.py:282`
rounds to an integer — whereas rounding `9.5` to 2 decimal places and
stripping sign and decimal-point characters, as the claim states and as the
longitude is actually treated, yields `"95"`. -/
theorem defaultGenBaseOutFileName_scenario :
    defaultGenBaseOutFileName scenarioState = "NA_" ++ "20010615" ++ "_" ++ "lat10lon695" ∧
    pyRemoveChar '-' (pyRemoveChar '.' (pyFloatStr2 (pyRound2 (19 / 2)))) = "95" ∧
    "lat10lon695" ≠ "lat95lon695" := by
  have e1 : ((19 : ℚ) / 2) * 100 = 950 := by norm_num
  have e2 : ((-139 : ℚ) / 2) * 100 = -6950 := by norm_num
  have hfl1 : ⌊((19 : ℚ) / 2) * 100⌋ = 950 := by rw [e1]; norm_num
  have hfl2 : ⌊((-139 : ℚ) / 2) * 100⌋ = -6950 := by rw [e2]; norm_num
  have l1 : pyRoundHalfEven ((19 : ℚ) / 2) = 10 := by
    have h9 : ⌊(19 : ℚ) / 2⌋ = 9 := by norm_num
    simp only [pyRoundHalfEven, h9]
    norm_num
  have l2 : pyRound2 ((19 : ℚ) / 2) = 19 / 2 := by
    have h950 : pyRoundHalfEven (((19 : ℚ) / 2) * 100) = 950 := by
      simp only [pyRoundHalfEven, hfl1, e1]
      norm_num
    simp only [pyRound2, h950]
    norm_num
  have l3 : pyRound2 ((-139 : ℚ) / 2) = -139 / 2 := by
    have h6950 : pyRoundHalfEven (((-139 : ℚ) / 2) * 100) = -6950 := by
      simp only [pyRoundHalfEven, hfl2, e2]
      norm_num
    simp only [pyRound2, h6950]
    norm_num
  have l4 : pyFloatStr2 ((19 : ℚ) / 2) = "9.5" := by
    simp only [pyFloatStr2, hfl1]
    decide
  have l5 : pyFloatStr2 ((-139 : ℚ) / 2) = "-69.5" := by
    simp only [pyFloatStr2, hfl2]
    decide
  refine ⟨?_, ?_, by decide⟩
  · simp only [defaultGenBaseOutFileName, scenarioState, l1, l3, l5]
    decide
  · rw [l2, l4]
    decide

/-- C9: the reprojected bounding box snaps `MinX` (floor) and `MaxY` (ceil) to
pixel-resolution multiples computed from the transformed TL corner, and `MaxX`
(ceil) and `MinY` (floor) from the transformed BR corner; the x sides use the
resolution `xPxlRes` itself, the y sides its absolute value. Each side is an
integer multiple of the corresponding resolution. -/
theorem getReProjBBOX_spec (transform : ℚ × ℚ → ℚ × ℚ)
    (xTL yTL xBR yBR xPxlRes yPxlRes : ℚ) (snap2Grid : Bool) :
    (getReProjBBOX transform xTL yTL xBR yBR xPxlRes yPxlRes snap2Grid).MinX
        = (⌊(transform (xTL, yTL)).1 / xPxlRes⌋ : ℚ) * xPxlRes ∧
    (getReProjBBOX transform xTL yTL xBR yBR xPxlRes yPxlRes snap2Grid).MaxY
        = (⌈(transform (xTL, yTL)).2 / |yPxlRes|⌉ : ℚ) * |yPxlRes| ∧
    (getReProjBBOX transform xTL yTL xBR yBR xPxlRes yPxlRes snap2Grid).MaxX
        = (⌈(transform (xBR, yBR)).1 / xPxlRes⌉ : ℚ) * xPxlRes ∧
    (getReProjBBOX transform xTL yTL xBR yBR xPxlRes yPxlRes snap2Grid).MinY
        = (⌊(transform (xBR, yBR)).2 / |yPxlRes|⌋ : ℚ) * |yPxlRes| ∧
    (∃ k : ℤ, (getReProjBBOX transform xTL yTL xBR yBR xPxlRes yPxlRes snap2Grid).MinX
        = (k : ℚ) * xPxlRes) ∧
    (∃ k : ℤ, (getReProjBBOX transform xTL yTL xBR yBR xPxlRes yPxlRes snap2Grid).MaxX
        = (k : ℚ) * xPxlRes) ∧
    (∃ k : ℤ, (getReProjBBOX transform xTL yTL xBR yBR xPxlRes yPxlRes snap2Grid).MaxY
        = (k : ℚ) * |yPxlRes|) ∧
    (∃ k : ℤ, (getReProjBBOX transform xTL yTL xBR yBR xPxlRes yPxlRes snap2Grid).MinY
        = (k : ℚ) * |yPxlRes|) :=
  ⟨rfl, rfl, rfl, rfl, ⟨_, rfl⟩, ⟨_, rfl⟩, ⟨_, rfl⟩, ⟨_, rfl⟩⟩

/-- C10: `getReProjBBOX` ignores its `snap2Grid` parameter — two calls whose
arguments differ only in `snap2Grid` return equal bounding boxes: grid
snapping is applied unconditionally. -/
theorem getReProjBBOX_snap2Grid_irrelevant (transform : ℚ × ℚ → ℚ × ℚ)
    (xTL yTL xBR yBR xPxlRes yPxlRes : ℚ) (s₁ s₂ : Bool) :
    getReProjBBOX transform xTL yTL xBR yBR xPxlRes yPxlRes s₁ =
      getReProjBBOX transform xTL yTL xBR yBR xPxlRes yPxlRes s₂ := rfl

theorem buildElevLoop_length {α : Type} (solver : ℚ → ℚ → α) (aot : ℚ) (n : ℕ) :
    ∀ e : ℚ, (buildElevLoop solver aot e n).length = n := by
  induction n with
  | zero => intro e; rfl
  | succ n ih => intro e; simp [buildElevLoop, ih]

theorem buildElevLoop_getElem {α : Type} (solver : ℚ → ℚ → α) (aot : ℚ) (n : ℕ) :
    ∀ (e : ℚ) (k : ℕ), k < n →
      (buildElevLoop solver aot e n)[k]? =
        some { Elev := e + 100 * (k : ℚ),
               Coeffs := solver ((e + 100 * (k : ℚ)) / 1000) aot } := by
  induction n with
  | zero => intro e k hk; exact absurd hk (Nat.not_lt_zero k)
  | succ n ih =>
    intro e k hk
    cases k with
    | zero => simp [buildElevLoop]
    | succ k =>
      have h2 := ih (e + 100) k (by omega)
      have harg : e + 100 + 100 * (k : ℚ) = e + 100 * ((k : ℚ) + 1) := by ring
      simp only [buildElevLoop, List.getElem?_cons_succ, h2]
      push_cast
      rw [harg]

theorem buildAOTLoop_length {α : Type} (solver : ℚ → ℚ → α) (elev : ℚ) (n : ℕ) :
    ∀ a : ℚ, (buildAOTLoop solver elev a n).length = n := by
  induction n with
  | zero => intro a; rfl
  | succ n ih => intro a; simp [buildAOTLoop, ih]

theorem buildAOTLoop_getElem {α : Type} (solver : ℚ → ℚ → α) (elev : ℚ) (n : ℕ) :
    ∀ (a : ℚ) (k : ℕ), k < n →
      (buildAOTLoop solver elev a n)[k]? =
        some { AOT := a + 1 / 20 * (k : ℚ),
               Coeffs := solver (elev / 1000) (a + 1 / 20 * (k : ℚ)) } := by
  induction n with
  | zero => intro a k hk; exact absurd hk (Nat.not_lt_zero k)
  | succ n ih =>
    intro a k hk
    cases k with
    | zero => simp [buildAOTLoop]
    | succ k =>
      have h2 := ih (a + 1 / 20) k (by omega)
      have harg : a + 1 / 20 + 1 / 20 * (k : ℚ) = a + 1 / 20 * ((k : ℚ) + 1) := by ring
      simp only [buildAOTLoop, List.getElem?_cons_succ, h2]
      push_cast
      rw [harg]

theorem buildElevAOTLoop_length {α : Type} (solver : ℚ → ℚ → α) (aMin : ℚ) (nA : ℕ) (n : ℕ) :
    ∀ e : ℚ, (buildElevAOTLoop solver aMin nA e n).length = n := by
  induction n with
  | zero => intro e; rfl
  | succ n ih => intro e; simp [buildElevAOTLoop, ih]

theorem buildElevAOTLoop_getElem {α : Type} (solver : ℚ → ℚ → α) (aMin : ℚ) (nA : ℕ) (n : ℕ) :
    ∀ (e : ℚ) (k : ℕ), k < n →
      (buildElevAOTLoop solver aMin nA e n)[k]? =
        some { Elev := e + 100 * (k : ℚ),
               Coeffs := buildAOTLoop solver (e + 100 * (k : ℚ)) aMin nA } := by
  induction n with
  | zero => intro e k hk; exact absurd hk (Nat.not_lt_zero k)
  | succ n ih =>
    intro e k hk
    cases k with
    | zero => simp [buildElevAOTLoop]
    | succ k =>
      have h2 := ih (e + 100) k (by omega)
      have harg : e + 100 + 100 * (k : ℚ) = e + 100 * ((k : ℚ) + 1) := by ring
      simp only [buildElevAOTLoop, List.getElem?_cons_succ, h2]
      push_cast
      rw [harg]

theorem numElevSteps_toNat (sMin sMax : ℚ) (h : sMin ≤ sMax) :
    (numElevSteps sMin sMax).toNat = (⌈(sMax - sMin) / 100⌉).toNat + 1 := by
  have h0 : (0 : ℚ) ≤ (sMax - sMin) / 100 := div_nonneg (by linarith) (by norm_num)
  have hc0 : 0 ≤ ⌈(sMax - sMin) / 100⌉ := Int.ceil_nonneg h0
  unfold numElevSteps
  omega

theorem numAOTSteps_toNat (aMin aMax : ℚ) (h : aMin ≤ aMax) :
    (numAOTSteps aMin aMax).toNat = (⌈(aMax - aMin) / (1 / 20)⌉).toNat + 2 := by
  have h0 : (0 : ℚ) ≤ (aMax - aMin) / (1 / 20) := div_nonneg (by linarith) (by norm_num)
  have hc0 : 0 ≤ ⌈(aMax - aMin) / (1 / 20)⌉ := Int.ceil_nonneg h0
  unfold numAOTSteps
  omega

theorem ceil_step_bound (a b : ℚ) (h : a ≤ b) :
    b ≤ a + 100 * (((⌈(b - a) / 100⌉).toNat : ℕ) : ℚ) := by
  have h0 : (0 : ℚ) ≤ (b - a) / 100 := div_nonneg (by linarith) (by norm_num)
  have hc0 : 0 ≤ ⌈(b - a) / 100⌉ := Int.ceil_nonneg h0
  have hcast : (((⌈(b - a) / 100⌉).toNat : ℕ) : ℚ) = ((⌈(b - a) / 100⌉ : ℤ) : ℚ) := by
    exact_mod_cast congrArg (fun z : ℤ => (z : ℚ)) (Int.toNat_of_nonneg hc0)
  have hle : (b - a) / 100 ≤ ((⌈(b - a) / 100⌉ : ℤ) : ℚ) := Int.le_ceil _
  have hmul := (div_le_iff₀ (by norm_num : (0 : ℚ) < 100)).mp hle
  rw [hcast]
  linarith

/-- C2: for `surfaceAltitudeMin ≤ surfaceAltitudeMax`, `buildElevation6SCoeffLUT`
returns exactly `⌈(max − min)/100⌉ + 1` entries; the `k`-th entry has elevation
`min + 100·k` (values start at `min` and strictly increase by exactly 100) and
carries the result of the one solver call made for it, at that elevation
divided by 1000 (kilometres); the last entry's elevation is `≥ max`. -/
theorem buildElevation6SCoeffLUT_spec {α : Type} (solver : ℚ → ℚ → α)
    (aotVal surfaceAltitudeMin surfaceAltitudeMax : ℚ)
    (h : surfaceAltitudeMin ≤ surfaceAltitudeMax) :
    (buildElevation6SCoeffLUT solver aotVal surfaceAltitudeMin surfaceAltitudeMax).length
        = (⌈(surfaceAltitudeMax - surfaceAltitudeMin) / 100⌉).toNat + 1 ∧
    (∀ k : ℕ,
      k < (buildElevation6SCoeffLUT solver aotVal surfaceAltitudeMin surfaceAltitudeMax).length →
      (buildElevation6SCoeffLUT solver aotVal surfaceAltitudeMin surfaceAltitudeMax)[k]? =
        some { Elev := surfaceAltitudeMin + 100 * (k : ℚ),
               Coeffs := solver ((surfaceAltitudeMin + 100 * (k : ℚ)) / 1000) aotVal }) ∧
    (∃ lastEntry,
      (buildElevation6SCoeffLUT solver aotVal surfaceAltitudeMin surfaceAltitudeMax).getLast?
          = some lastEntry ∧ surfaceAltitudeMax ≤ lastEntry.Elev) := by
  have hn := numElevSteps_toNat surfaceAltitudeMin surfaceAltitudeMax h
  have hlen : (buildElevation6SCoeffLUT solver aotVal surfaceAltitudeMin surfaceAltitudeMax).length
      = (⌈(surfaceAltitudeMax - surfaceAltitudeMin) / 100⌉).toNat + 1 := by
    rw [buildElevation6SCoeffLUT, buildElevLoop_length, hn]
  refine ⟨hlen, ?_, ?_⟩
  · intro k hk
    rw [hlen] at hk
    rw [buildElevation6SCoeffLUT]
    exact buildElevLoop_getElem solver aotVal _ surfaceAltitudeMin k (by rw [hn]; omega)
  · refine ⟨{ Elev := surfaceAltitudeMin
                + 100 * (((⌈(surfaceAltitudeMax - surfaceAltitudeMin) / 100⌉).toNat : ℕ) : ℚ),
              Coeffs := solver ((surfaceAltitudeMin
                + 100 * (((⌈(surfaceAltitudeMax - surfaceAltitudeMin) / 100⌉).toNat : ℕ) : ℚ))
                  / 1000) aotVal }, ?_, ?_⟩
    · rw [List.getLast?_eq_getElem?, hlen, Nat.add_sub_cancel, buildElevation6SCoeffLUT]
      exact buildElevLoop_getElem solver aotVal _ surfaceAltitudeMin _ (by rw [hn]; omega)
    · exact ceil_step_bound surfaceAltitudeMin surfaceAltitudeMax h

/-- Witness for the C2 theorem: `surfaceAltitudeMin = 0`, `surfaceAltitudeMax = 150`,
`aotVal = 0`, with the solver abstracted as the pairing function. The LUT then
has `⌈150/100⌉ + 1 = 3` entries at elevations 0, 100, 200. -/
theorem buildElevation6SCoeffLUT_spec_witness :
    (0 : ℚ) ≤ 150 ∧
    ((buildElevation6SCoeffLUT (fun a b => (a, b)) 0 0 150).length
        = (⌈((150 : ℚ) - 0) / 100⌉).toNat + 1 ∧
    (∀ k : ℕ,
      k < (buildElevation6SCoeffLUT (fun a b => (a, b)) 0 0 150).length →
      (buildElevation6SCoeffLUT (fun a b => (a, b)) 0 0 150)[k]? =
        some { Elev := 0 + 100 * (k : ℚ),
               Coeffs := (((0 : ℚ) + 100 * (k : ℚ)) / 1000, (0 : ℚ)) }) ∧
    (∃ lastEntry,
      (buildElevation6SCoeffLUT (fun a b => (a, b)) 0 0 150).getLast?
          = some lastEntry ∧ (150 : ℚ) ≤ lastEntry.Elev)) :=
  ⟨by norm_num, buildElevation6SCoeffLUT_spec (fun a b => (a, b)) 0 0 150 (by norm_num)⟩

/-- C3: for valid ranges (`surfaceAltitudeMin ≤ surfaceAltitudeMax`,
`aotMin ≤ aotMax`), the 2D LUT's outer length equals the 1D elevation LUT's
length, namely `⌈(max − min)/100⌉ + 1`; every inner sequence has length exactly
`⌈(aotMax − aotMin)/0.05⌉ + 2`, and the inner entries' AOT values start at
`aotMin` and step by `0.05`. -/
theorem buildElevationAOT6SCoeffLUT_spec {α : Type} (solver : ℚ → ℚ → α)
    (surfaceAltitudeMin surfaceAltitudeMax aotMin aotMax : ℚ)
    (hElev : surfaceAltitudeMin ≤ surfaceAltitudeMax) (hAOT : aotMin ≤ aotMax) :
    (∀ aotVal : ℚ,
      (buildElevationAOT6SCoeffLUT solver surfaceAltitudeMin surfaceAltitudeMax aotMin aotMax).length
        = (buildElevation6SCoeffLUT solver aotVal surfaceAltitudeMin surfaceAltitudeMax).length) ∧
    (buildElevationAOT6SCoeffLUT solver surfaceAltitudeMin surfaceAltitudeMax aotMin aotMax).length
        = (⌈(surfaceAltitudeMax - surfaceAltitudeMin) / 100⌉).toNat + 1 ∧
    (∀ k : ℕ,
      k < (buildElevationAOT6SCoeffLUT solver surfaceAltitudeMin surfaceAltitudeMax
            aotMin aotMax).length →
      ∃ entry,
        (buildElevationAOT6SCoeffLUT solver surfaceAltitudeMin surfaceAltitudeMax
            aotMin aotMax)[k]? = some entry ∧
        entry.Elev = surfaceAltitudeMin + 100 * (k : ℚ) ∧
        entry.Coeffs.length = (⌈(aotMax - aotMin) / (1 / 20)⌉).toNat + 2 ∧
        (∀ j : ℕ, j < entry.Coeffs.length →
          entry.Coeffs[j]? =
            some { AOT := aotMin + 1 / 20 * (j : ℚ),
                   Coeffs := solver ((surfaceAltitudeMin + 100 * (k : ℚ)) / 1000)
                     (aotMin + 1 / 20 * (j : ℚ)) })) := by
  have hnE := numElevSteps_toNat surfaceAltitudeMin surfaceAltitudeMax hElev
  have hnA := numAOTSteps_toNat aotMin aotMax hAOT
  have hlen : (buildElevationAOT6SCoeffLUT solver surfaceAltitudeMin surfaceAltitudeMax
      aotMin aotMax).length = (⌈(surfaceAltitudeMax - surfaceAltitudeMin) / 100⌉).toNat + 1 := by
    rw [buildElevationAOT6SCoeffLUT, buildElevAOTLoop_length, hnE]
  refine ⟨?_, hlen, ?_⟩
  · intro aotVal
    rw [hlen, buildElevation6SCoeffLUT, buildElevLoop_length, hnE]
  · intro k hk
    rw [hlen] at hk
    refine ⟨{ Elev := surfaceAltitudeMin + 100 * (k : ℚ),
              Coeffs := buildAOTLoop solver (surfaceAltitudeMin + 100 * (k : ℚ)) aotMin
                (numAOTSteps aotMin aotMax).toNat }, ?_, rfl, ?_, ?_⟩
    · rw [buildElevationAOT6SCoeffLUT]
      exact buildElevAOTLoop_getElem solver aotMin _ _ surfaceAltitudeMin k (by rw [hnE]; omega)
    · rw [buildAOTLoop_length, hnA]
    · intro j hj
      rw [buildAOTLoop_length] at hj
      exact buildAOTLoop_getElem solver _ _ aotMin j hj

/-- Witness for the C3 theorem: elevation range `[0, 50]` (outer length
`⌈1/2⌉ + 1 = 2`), AOT range `[0, 1/20]` (inner length `⌈1⌉ + 2 = 3`), solver
abstracted as the pairing function. -/
theorem buildElevationAOT6SCoeffLUT_spec_witness :
    ((0 : ℚ) ≤ 50 ∧ (0 : ℚ) ≤ 1 / 20) ∧
    ((∀ aotVal : ℚ,
      (buildElevationAOT6SCoeffLUT (fun a b => (a, b)) 0 50 0 (1 / 20)).length
        = (buildElevation6SCoeffLUT (fun a b => (a, b)) aotVal 0 50).length) ∧
    (buildElevationAOT6SCoeffLUT (fun a b => (a, b)) 0 50 0 (1 / 20)).length
        = (⌈((50 : ℚ) - 0) / 100⌉).toNat + 1 ∧
    (∀ k : ℕ,
      k < (buildElevationAOT6SCoeffLUT (fun a b => (a, b)) 0 50 0 (1 / 20)).length →
      ∃ entry,
        (buildElevationAOT6SCoeffLUT (fun a b => (a, b)) 0 50 0 (1 / 20))[k]? = some entry ∧
        entry.Elev = 0 + 100 * (k : ℚ) ∧
        entry.Coeffs.length = (⌈((1 : ℚ) / 20 - 0) / (1 / 20)⌉).toNat + 2 ∧
        (∀ j : ℕ, j < entry.Coeffs.length →
          entry.Coeffs[j]? =
            some { AOT := 0 + 1 / 20 * (j : ℚ),
                   Coeffs := ((((0 : ℚ) + 100 * (k : ℚ)) / 1000),
                     ((0 : ℚ) + 1 / 20 * (j : ℚ))) }))) :=
  ⟨⟨by norm_num, by norm_num⟩,
   buildElevationAOT6SCoeffLUT_spec (fun a b => (a, b)) 0 50 0 (1 / 20)
     (by norm_num) (by norm_num)⟩

theorem aotFoldRange_spec (f : ℚ → ℚ) (mn : ℚ) (n : ℕ) (hn : 1 ≤ n) :
    ∃ k : ℕ, k < n ∧
      (List.range n).foldl (aotStep f mn) (0, 0) =
        (mn + 1 / 20 * (k : ℚ), f (mn + 1 / 20 * (k : ℚ))) ∧
      (∀ j : ℕ, j < n → f (mn + 1 / 20 * (k : ℚ)) ≤ f (mn + 1 / 20 * (j : ℚ))) ∧
      (∀ j : ℕ, j < k → f (mn + 1 / 20 * (k : ℚ)) < f (mn + 1 / 20 * (j : ℚ))) := by
  induction n with
  | zero => omega
  | succ n ih =>
    rcases Nat.eq_zero_or_pos n with h0 | hpos
    · subst h0
      refine ⟨0, Nat.zero_lt_one, ?_, ?_, ?_⟩
      · rw [show List.range 1 = [0] from rfl]
        simp only [List.foldl_cons, List.foldl_nil, aotStep, if_pos rfl]
        norm_num
      · intro j hj
        have : j = 0 := by omega
        subst this
        exact le_refl _
      · intro j hj
        exact absurd hj (Nat.not_lt_zero j)
    · obtain ⟨k, hk, hfold, hmin, hstrict⟩ := ih hpos
      rw [List.range_succ, List.foldl_append, hfold]
      simp only [List.foldl_cons, List.foldl_nil]
      have hn0 : ¬ n = 0 := by omega
      by_cases hlt : f (mn + 1 / 20 * (n : ℚ)) < f (mn + 1 / 20 * (k : ℚ))
      · refine ⟨n, by omega, ?_, ?_, ?_⟩
        · simp only [aotStep, if_neg hn0]
          rw [if_pos hlt]
        · intro j hj
          rcases Nat.lt_succ_iff_lt_or_eq.mp hj with hj | hj
          · exact le_of_lt (lt_of_lt_of_le hlt (hmin j hj))
          · subst hj
            exact le_refl _
        · intro j hj
          exact lt_of_lt_of_le hlt (hmin j hj)
      · refine ⟨k, by omega, ?_, ?_, ?_⟩
        · simp only [aotStep, if_neg hn0]
          rw [if_neg hlt]
        · intro j hj
          rcases Nat.lt_succ_iff_lt_or_eq.mp hj with hj | hj
          · exact hmin j hj
          · subst hj
            exact le_of_not_lt hlt
        · exact hstrict

/-- C4 counterexample: at `aotValMin = aotValMax = 1/2` the candidate count
`⌈0/0.05⌉ + 1 = 1` is fewer than 2 usable steps, yet no error is raised: the
search runs over the single candidate and returns it. The guard only fires
for a candidate count `< 1`. -/
theorem estimateSingleAOT_no_raise_at_single_candidate :
    numAOTValTests (1 / 2) (1 / 2) = 1 ∧
    estimateSingleAOTFromDOSBandImplSearch (fun x => x) (1 / 2) (1 / 2)
      = Except.ok (1 / 2) := by
  have hceil : ⌈((1 : ℚ) / 2 - 1 / 2) / (1 / 20)⌉ = 0 := by norm_num
  have h1 : numAOTValTests (1 / 2) (1 / 2) = 1 := by
    unfold numAOTValTests
    rw [hceil]
    norm_num
  refine ⟨h1, ?_⟩
  unfold estimateSingleAOTFromDOSBandImplSearch
  rw [if_neg (show ¬ ¬ numAOTValTests (1 / 2) (1 / 2) ≥ 1 by rw [h1]; norm_num), h1]
  show Except.ok (aotSearchLoop (fun x => x) (1 / 2) (1 : ℤ).toNat) = _
  rw [show (1 : ℤ).toNat = 1 from rfl]
  unfold aotSearchLoop
  rw [show List.range 1 = [0] from rfl]
  simp only [List.foldl_cons, List.foldl_nil, aotStep, if_pos rfl]
  norm_num

/-- C4 amended: `estimateSingleAOTFromDOSBandImplSearch` raises the range
error iff the candidate count `numAOTValTests = ⌈(aotValMax − aotValMin)/0.05⌉ + 1`
is `< 1`, i.e. iff `aotValMax ≤ aotValMin − 0.05`; when it does not raise, the
search proceeds with exactly that candidate count. (A count of exactly 1 —
fewer than 2 usable steps — does not raise.) -/
theorem estimateSingleAOTFromDOSBandImplSearch_raise_characterisation
    (f : ℚ → ℚ) (aotValMin aotValMax : ℚ) :
    estimateSingleAOTFromDOSBandImplSearch f aotValMin aotValMax =
      (if aotValMax ≤ aotValMin - 1 / 20 then Except.error aotRangeErrMsg
       else Except.ok (aotSearchLoop f aotValMin (numAOTValTests aotValMin aotValMax).toNat)) := by
  have hiff : numAOTValTests aotValMin aotValMax < 1 ↔ aotValMax ≤ aotValMin - 1 / 20 := by
    unfold numAOTValTests
    constructor
    · intro hlt
      have hle : ⌈(aotValMax - aotValMin) / (1 / 20)⌉ ≤ -1 := by omega
      have hq := Int.ceil_le.mp hle
      rw [div_le_iff₀ (by norm_num : (0 : ℚ) < 1 / 20)] at hq
      push_cast at hq
      linarith
    · intro hle
      have h1 : (aotValMax - aotValMin) / (1 / 20) ≤ ((-1 : ℤ) : ℚ) := by
        rw [div_le_iff₀ (by norm_num : (0 : ℚ) < 1 / 20)]
        push_cast
        linarith
      have := Int.ceil_le.mpr h1
      omega
  unfold estimateSingleAOTFromDOSBandImplSearch
  by_cases hc : aotValMax ≤ aotValMin - 1 / 20
  · rw [if_pos hc, if_pos (show ¬ numAOTValTests aotValMin aotValMax ≥ 1 by
      have := hiff.mpr hc; omega)]
  · rw [if_neg hc, if_neg (show ¬ ¬ numAOTValTests aotValMin aotValMax ≥ 1 by
      have : ¬ numAOTValTests aotValMin aotValMax < 1 := fun hlt => hc (hiff.mp hlt)
      omega)]

/-- C7: when the range guard passes (`numAOTValTests ≥ 1`), the search returns
the candidate `aotValMin + 0.05·k` for some `k` below the candidate count; its
objective value is `≤` that of every candidate `aotValMin + 0.05·j`, and every
earlier candidate has a strictly larger objective value — so a tie keeps the
first (lowest-AOT) minimum encountered. -/
theorem estimateSingleAOTFromDOSBandImplSearch_first_argmin (f : ℚ → ℚ)
    (aotValMin aotValMax : ℚ) (h : 1 ≤ numAOTValTests aotValMin aotValMax) :
    ∃ k : ℕ, k < (numAOTValTests aotValMin aotValMax).toNat ∧
      estimateSingleAOTFromDOSBandImplSearch f aotValMin aotValMax =
        Except.ok (aotValMin + 1 / 20 * (k : ℚ)) ∧
      (∀ j : ℕ, j < (numAOTValTests aotValMin aotValMax).toNat →
        f (aotValMin + 1 / 20 * (k : ℚ)) ≤ f (aotValMin + 1 / 20 * (j : ℚ))) ∧
      (∀ j : ℕ, j < k →
        f (aotValMin + 1 / 20 * (k : ℚ)) < f (aotValMin + 1 / 20 * (j : ℚ))) := by
  have hn : 1 ≤ (numAOTValTests aotValMin aotValMax).toNat := by omega
  obtain ⟨k, hk, hfold, hmin, hstrict⟩ := aotFoldRange_spec f aotValMin _ hn
  refine ⟨k, hk, ?_, hmin, hstrict⟩
  unfold estimateSingleAOTFromDOSBandImplSearch
  rw [if_neg (show ¬ ¬ numAOTValTests aotValMin aotValMax ≥ 1 by omega)]
  unfold aotSearchLoop
  rw [hfold]

/-- Witness for the C7 theorem: range `[0, 1/10]` (3 candidates), identity
objective — the first candidate `0` is the unique minimum. -/
theorem estimateSingleAOTFromDOSBandImplSearch_first_argmin_witness :
    1 ≤ numAOTValTests 0 (1 / 10) ∧
    (∃ k : ℕ, k < (numAOTValTests 0 (1 / 10)).toNat ∧
      estimateSingleAOTFromDOSBandImplSearch (fun x => x) 0 (1 / 10) =
        Except.ok ((0 : ℚ) + 1 / 20 * (k : ℚ)) ∧
      (∀ j : ℕ, j < (numAOTValTests 0 (1 / 10)).toNat →
        ((0 : ℚ) + 1 / 20 * (k : ℚ)) ≤ ((0 : ℚ) + 1 / 20 * (j : ℚ))) ∧
      (∀ j : ℕ, j < k →
        ((0 : ℚ) + 1 / 20 * (k : ℚ)) < ((0 : ℚ) + 1 / 20 * (j : ℚ)))) :=
  ⟨by unfold numAOTValTests; norm_num,
   estimateSingleAOTFromDOSBandImplSearch_first_argmin (fun x => x) 0 (1 / 10)
     (by unfold numAOTValTests; norm_num)⟩

/-- C8: every output pixel of `interpolateImageFromPointData` is a defined
rational (never NaN): it equals the cubic result where that is defined and the
nearest-neighbour result where the cubic result is NaN; when `notNegOut` is
set, a pixel whose interpolated value would be negative is set to
`notNegMinVal` instead. -/
theorem interpolateImageFromPointData_pixel (notNegOut : Bool) (notNegMinVal : ℚ)
    (cubVals : List (Option ℚ)) (nnVals : List ℚ) (i : ℕ) (cub : Option ℚ) (nn : ℚ)
    (hc : cubVals[i]? = some cub) (hn : nnVals[i]? = some nn) :
    (interpolateImageFromPointData notNegOut notNegMinVal cubVals nnVals)[i]? =
      some (if notNegOut = true ∧ cub.getD nn < 0 then notNegMinVal
            else cub.getD nn) := by
  unfold interpolateImageFromPointData
  rw [List.getElem?_zipWith, hc, hn]
  show some (interpolatePixel notNegOut notNegMinVal cub nn) = _
  congr 1
  rcases cub with _ | v <;> cases notNegOut <;>
    simp [interpolatePixel]

/-- Witness for the C8 theorem: pixel 0 has cubic result NaN (`none`) and
nearest-neighbour value 7; with `notNegOut = true` and floor 0 the output is
the (non-negative) nearest-neighbour value. -/
theorem interpolateImageFromPointData_pixel_witness :
    (([none, some (-3)] : List (Option ℚ))[0]? = some none ∧
      ([7, 2] : List ℚ)[0]? = some 7) ∧
    (interpolateImageFromPointData true 0 [none, some (-3)] [7, 2])[0]? =
      some (if true = true ∧ (Option.getD none (7 : ℚ)) < 0 then (0 : ℚ)
            else Option.getD none (7 : ℚ)) :=
  ⟨⟨rfl, rfl⟩,
   interpolateImageFromPointData_pixel true 0 [none, some (-3)] [7, 2] 0 none 7 rfl rfl⟩

end Arcsi
